import Mathlib

/-!
Shallow embedding of the NPP thermal-balance cycle solver
(Calculator::calculate in src/calc/src/lib.rs) together with the
steam-property interface it consumes (the seuif97 wrappers px, tx, ph,
ps, pt).  Machine floating-point numbers are modelled as rationals; the
property library is modelled as an abstract environment of pure
functions, mirroring the signatures the source calls.  The two
unbounded `loop` constructs of the source are modelled with an explicit
fuel argument: `none` means the fuel was exhausted before the loop's
break condition fired, i.e. the source program is still looping.
-/

/-- Property selector constants of the seuif97 library used by the source:
OT temperature, OH enthalpy, OS entropy, OP pressure, OX quality, OD density. -/
inductive OKind where
  | OT
  | OH
  | OS
  | OP
  | OX
  | OD
deriving DecidableEq

/-- Abstract steam-property service: one pure function per binary query shape
used by the source (pressure+quality, temperature+quality, pressure+enthalpy,
pressure+entropy, pressure+temperature), plus the natural logarithm used once
for the log-mean temperature difference. -/
structure Env where
  px : ℚ → ℚ → OKind → ℚ
  tx : ℚ → ℚ → OKind → ℚ
  ph : ℚ → ℚ → OKind → ℚ
  ps : ℚ → ℚ → OKind → ℚ
  pt : ℚ → ℚ → OKind → ℚ
  fln : ℚ → ℚ

/-- Input parameter record, mirroring CalcInputParameters in
src/calc/src/parameters.rs field for field. -/
structure Params where
  ne : ℚ
  n_1 : ℚ
  x_fh : ℚ
  zeta_d : ℚ
  n_hi : ℚ
  n_li : ℚ
  n_m : ℚ
  n_ge : ℚ
  dp_fh : ℚ
  dp_rh : ℚ
  dp_ej : ℚ
  dp_cd : ℚ
  dp_f : ℚ
  theta_hu : ℚ
  theta_lu : ℚ
  n_h : ℚ
  n_fwpp : ℚ
  n_fwpti : ℚ
  n_fwptm : ℚ
  n_fwptg : ℚ
  t_sw1 : ℚ
  ne_npp : ℚ
  g_cd : ℚ
  p_c : ℚ
  dt_sub : ℚ
  dt_c : ℚ
  p_s : ℚ
  dt_sw : ℚ
  dt : ℚ
  dp_hz : ℚ
  t_rh2z : ℚ
  z : ℚ
  z_l : ℚ
  z_h : ℚ
  dt_fw : ℚ
  dp_fwpo : ℚ
  dp_cwp : ℚ

/-! Straight-line stage evaluation (lib.rs lines 37-185): every `let` of the
source becomes one definition, named as in the source.  The computed
steam-pressure losses that shadow input fields in the source are suffixed
with v (dp_fhv, dp_rhv, dp_cdv); the second-reheater outlet temperature
t_rh2z (which shadows the input offset of the same name) becomes t_rh2zv. -/

def t_cs (E : Env) (p : Params) : ℚ := E.px p.p_c 0 .OT

def t_co (E : Env) (p : Params) : ℚ := t_cs E p - p.dt_sub

def t_ci (E : Env) (p : Params) : ℚ := t_co E p - p.dt_c

def t_s (E : Env) (p : Params) : ℚ := E.px p.p_s 1 .OT

def t_fh (E : Env) (p : Params) : ℚ := E.px p.p_s p.x_fh .OT

def h_fh (E : Env) (p : Params) : ℚ := E.tx (t_fh E p) p.x_fh .OH

def s_fh (E : Env) (p : Params) : ℚ := E.px p.p_s p.x_fh .OS

def dt_m (E : Env) (p : Params) : ℚ :=
  (t_co E p - t_ci E p) / E.fln ((t_co E p - t_s E p) / (t_ci E p - t_s E p))

def t_cd (p : Params) : ℚ := p.t_sw1 + p.dt_sw + p.dt

def p_cd (E : Env) (p : Params) : ℚ := E.tx (t_cd p) 0 .OP

def dp_fhv (p : Params) : ℚ := p.dp_fh * p.p_s

def p_hi (p : Params) : ℚ := p.p_s - dp_fhv p

def h_hi (E : Env) (p : Params) : ℚ := E.px (p_hi p) 1 .OH

def x_hi (E : Env) (p : Params) : ℚ := E.ph (p_hi p) (h_hi E p) .OX

def s_hi (E : Env) (p : Params) : ℚ := E.ph (p_hi p) (h_hi E p) .OS

def p_hz (p : Params) : ℚ := p.dp_hz * p_hi p

def h_hzs (E : Env) (p : Params) : ℚ := E.ps (p_hz p) (s_hi E p) .OH

def h_hz (E : Env) (p : Params) : ℚ := h_hi E p - p.n_hi * (h_hi E p - h_hzs E p)

def x_hz (E : Env) (p : Params) : ℚ := E.ph (p_hz p) (h_hz E p) .OX

def dp_rhv (p : Params) : ℚ := p.dp_rh * p_hz p

def p_spi (p : Params) : ℚ := p_hz p

def x_spi (E : Env) (p : Params) : ℚ := x_hz E p

def p_uw (p : Params) : ℚ := 99/100 * p_hz p

def h_uw (E : Env) (p : Params) : ℚ := E.px (p_uw p) 0 .OH

def p_rh1i (p : Params) : ℚ := 99/100 * p_hz p

def x_rh1i (E : Env) (p : Params) : ℚ :=
  x_spi E p / (1 - 98/100 * (1 - x_spi E p))

def h_rh1i (E : Env) (p : Params) : ℚ := E.px (p_rh1i p) (x_rh1i E p) .OH

def p_rh2i (p : Params) : ℚ := 98/100 * p_hz p

def p_rh2z (p : Params) : ℚ := 97/100 * p_hz p

def t_rh2zv (E : Env) (p : Params) : ℚ := t_fh E p - p.t_rh2z

def h_rh2z (E : Env) (p : Params) : ℚ := E.pt (p_rh2z p) (t_rh2zv E p) .OH

def dh_rh (E : Env) (p : Params) : ℚ := (h_rh2z E p - h_rh1i E p) / 2

def h_rh1z (E : Env) (p : Params) : ℚ := h_rh1i E p + dh_rh E p

def h_rh2i (E : Env) (p : Params) : ℚ := h_rh1z E p

def t_rh2i (E : Env) (p : Params) : ℚ := E.ph (p_rh2i p) (h_rh2i E p) .OT

def p_rh2hs (p : Params) : ℚ := p_hi p

def x_rh2hs (E : Env) (p : Params) : ℚ := x_hi E p

def p_li (p : Params) : ℚ := (1 - p.dp_f) * p_rh2z p

def h_li (E : Env) (p : Params) : ℚ := h_rh2z E p

def t_li (E : Env) (p : Params) : ℚ := E.ph (p_li p) (h_li E p) .OT

def dp_cdv (E : Env) (p : Params) : ℚ := (1 / (1 - p.dp_cd) - 1) * p_cd E p

def p_lz (E : Env) (p : Params) : ℚ := p_cd E p + dp_cdv E p

def s_li (E : Env) (p : Params) : ℚ := E.ph (p_li p) (h_li E p) .OS

def s_lz (E : Env) (p : Params) : ℚ := s_li E p

def h_lzs (E : Env) (p : Params) : ℚ := E.ps (p_lz E p) (s_lz E p) .OH

def h_lz (E : Env) (p : Params) : ℚ := h_li E p - p.n_li * (h_li E p - h_lzs E p)

def x_lz (E : Env) (p : Params) : ℚ := E.ph (p_lz E p) (h_lz E p) .OX

def h_s (E : Env) (p : Params) : ℚ := E.px p.p_s 0 .OH

def h_cd (E : Env) (p : Params) : ℚ := E.tx (t_cd p) 0 .OH

def dh_fwop (E : Env) (p : Params) : ℚ := (h_s E p - h_cd E p) / (p.z + 1)

def h_fwop (E : Env) (p : Params) : ℚ := h_cd E p + p.z * dh_fwop E p

def t_fwop (E : Env) (p : Params) : ℚ := E.ph p.p_s (h_fwop E p) .OT

def t_fw (E : Env) (p : Params) : ℚ := p.dt_fw * t_fwop E p

def h_fw (E : Env) (p : Params) : ℚ := E.pt p.p_s (t_fw E p) .OH

def dh_fw (E : Env) (p : Params) : ℚ := (h_fw E p - h_cd E p) / p.z

def p_dea (p : Params) : ℚ := 99/100 * p_hz p

def t_deao (E : Env) (p : Params) : ℚ := E.px (p_dea p) 0 .OT

def h_deao (E : Env) (p : Params) : ℚ := E.tx (t_deao E p) 0 .OH

def dh_fwh (E : Env) (p : Params) : ℚ := (h_fw E p - h_deao E p) / p.z_h

def dh_fwl (E : Env) (p : Params) : ℚ := (h_deao E p - h_cd E p) / (p.z_l + 1)

def p_cwp (p : Params) : ℚ := p.dp_cwp * p_dea p

def h_cwp (E : Env) (p : Params) : ℚ := h_cd E p

def t_cwp (E : Env) (p : Params) : ℚ := E.ph (p_cwp p) (h_cwp E p) .OT

def dp_cws (p : Params) : ℚ := p_cwp p - p_dea p

def dp_fi (p : Params) : ℚ := dp_cws p / (p.z_l + 1)

/-- Result tuple of the two feedwater-heater helper functions (the source
returns a positional 9-tuple; the fields keep the source order and names). -/
structure FWRes where
  p_fwxi : ℚ
  h_fwxi : ℚ
  t_fwxi : ℚ
  p_fwxo : ℚ
  h_fwxo : ℚ
  t_fwxo : ℚ
  t_roxk : ℚ
  h_roxk : ℚ
  p_roxk : ℚ

/-- Low-pressure feedwater-heater stage, Calculator::calc_fwxl. -/
def calc_fwxl (E : Env) (p : Params)
    (p_fwxi h_fwxi t_fwxi dp_fi dh_fw : ℚ) : FWRes :=
  let p_fwxo := p_fwxi - dp_fi
  let h_fwxo := h_fwxi + dh_fw
  let t_fwxo := E.ph p_fwxo h_fwxo .OT
  let t_roxk := t_fwxo + p.theta_lu
  let h_roxk := E.tx t_roxk 0 .OH
  let p_roxk := E.tx t_roxk 0 .OP
  ⟨p_fwxi, h_fwxi, t_fwxi, p_fwxo, h_fwxo, t_fwxo, t_roxk, h_roxk, p_roxk⟩

/-- High-pressure feedwater-heater stage, Calculator::calc_fwxh. -/
def calc_fwxh (E : Env) (p : Params)
    (p_fwxi h_fwxi t_fwxi p_fwxo dh_fw : ℚ) : FWRes :=
  let h_fwxo := h_fwxi + dh_fw
  let t_fwxo := E.ph p_fwxo h_fwxo .OT
  let t_roxk := t_fwxo + p.theta_hu
  let p_roxk := E.tx t_roxk 0 .OP
  let h_roxk := E.px p_roxk 0 .OH
  ⟨p_fwxi, h_fwxi, t_fwxi, p_fwxo, h_fwxo, t_fwxo, t_roxk, h_roxk, p_roxk⟩

def fw1 (E : Env) (p : Params) : FWRes :=
  calc_fwxl E p (p_cwp p) (h_cwp E p) (t_cwp E p) (dp_fi p) (dh_fwl E p)

def fw2 (E : Env) (p : Params) : FWRes :=
  calc_fwxl E p (fw1 E p).p_fwxo (fw1 E p).h_fwxo (fw1 E p).t_fwxo (dp_fi p) (dh_fwl E p)

def fw3 (E : Env) (p : Params) : FWRes :=
  calc_fwxl E p (fw2 E p).p_fwxo (fw2 E p).h_fwxo (fw2 E p).t_fwxo (dp_fi p) (dh_fwl E p)

def fw4 (E : Env) (p : Params) : FWRes :=
  calc_fwxl E p (fw3 E p).p_fwxo (fw3 E p).h_fwxo (fw3 E p).t_fwxo (dp_fi p) (dh_fwl E p)

def h_deai (E : Env) (p : Params) : ℚ := (fw4 E p).h_fwxo

def p_fwpo (p : Params) : ℚ := p.dp_fwpo * p.p_s

def h_fwpo (E : Env) (p : Params) : ℚ := h_deao E p

def t_fwpo (E : Env) (p : Params) : ℚ := E.ph (p_fwpo p) (h_fwpo E p) .OT

def p_fwi (p : Params) : ℚ := p.p_s + 1/10

def fw6 (E : Env) (p : Params) : FWRes :=
  calc_fwxh E p (p_fwpo p) (h_fwpo E p) (t_fwpo E p)
    (p_fwpo p - (p_fwpo p - p_fwi p) / 2) (dh_fwh E p)

def fw7 (E : Env) (p : Params) : FWRes :=
  calc_fwxh E p (fw6 E p).p_fwxo (fw6 E p).h_fwxo (fw6 E p).t_fwxo (p_fwi p) (dh_fwh E p)

/-- Result tuple of the extraction helper Calculator::calc_esx. -/
structure ESRes where
  p_esx : ℚ
  h_esxs : ℚ
  h_esx : ℚ
  x_esx : ℚ

/-- Extraction-point parameters, Calculator::calc_esx. -/
def calc_esx (E : Env) (p : Params) (p_roxk s_i h_i : ℚ) ( is_h : Bool) : ESRes :=
  let p_esx := p_roxk / (1 - p.dp_ej)
  let h_esxs := E.ps p_esx s_i .OH
  let h_esx := h_i - (if is_h then p.n_hi else p.n_li) * (h_i - h_esxs)
  let x_esx := E.ph p_esx h_esx .OX
  ⟨p_esx, h_esxs, h_esx, x_esx⟩

def hes6 (E : Env) (p : Params) : ESRes :=
  calc_esx E p (fw6 E p).p_roxk (s_hi E p) (h_hi E p) true

def hes7 (E : Env) (p : Params) : ESRes :=
  calc_esx E p (fw7 E p).p_roxk (s_hi E p) (h_hi E p) true

def les1 (E : Env) (p : Params) : ESRes :=
  calc_esx E p (fw1 E p).p_roxk (s_li E p) (h_li E p) false

def les2 (E : Env) (p : Params) : ESRes :=
  calc_esx E p (fw2 E p).p_roxk (s_li E p) (h_li E p) false

def les3 (E : Env) (p : Params) : ESRes :=
  calc_esx E p (fw3 E p).p_roxk (s_li E p) (h_li E p) false

def les4 (E : Env) (p : Params) : ESRes :=
  calc_esx E p (fw4 E p).p_roxk (s_li E p) (h_li E p) false

/-- Result tuple of the reheater-tap helper Calculator::calc_rhx. -/
structure RHRes where
  p_rhx : ℚ
  x_rhx : ℚ
  t_rhx : ℚ
  h_rhx : ℚ
  h_zsx : ℚ

/-- Reheater heating-steam parameters, Calculator::calc_rhx. -/
def calc_rhx (E : Env) (p_rhx x_rhx : ℚ) : RHRes :=
  ⟨p_rhx, x_rhx, E.px p_rhx x_rhx .OT, E.px p_rhx x_rhx .OH, E.px p_rhx 0 .OH⟩

def rh1 (E : Env) (p : Params) : RHRes :=
  calc_rhx E (hes7 E p).p_esx (hes7 E p).x_esx

def rh2 (E : Env) (p : Params) : RHRes :=
  calc_rhx E (p_hi p) (x_hi E p)

def h_a (E : Env) (p : Params) : ℚ := h_hi E p - h_hz E p

/-! The nested convergence loop (lib.rs lines 186-313). -/

/-- Mass flows computed by one pass of the inner (condenser-flow) loop body,
lib.rs lines 211-274; reads the assumed condenser flow from p.g_cd. -/
structure Flows where
  g_fwps : ℚ
  g_les4 : ℚ
  g_les3 : ℚ
  g_les2 : ℚ
  g_les1 : ℚ
  g_sl : ℚ
  g_zc1 : ℚ
  g_zc2 : ℚ
  g_hes7 : ℚ
  g_hes6 : ℚ
  g_uw : ℚ
  g_sdea : ℚ
  g_sh : ℚ
  d_s : ℚ
  g_fw1 : ℚ
  g_cd1 : ℚ

/-- One evaluation of the inner-loop body: every flow formula of
lib.rs lines 212-274, verbatim. -/
def innerStep (E : Env) (p : Params) (h_fwp rho_fwp g_fw : ℚ) : Flows :=
  let n_fwpp := 1000 * g_fw * h_fwp / rho_fwp
  let n_fwpt := n_fwpp / (p.n_fwpp * p.n_fwpti * p.n_fwptm * p.n_fwptg)
  let g_fwps := n_fwpt / h_a E p
  let g_les4 := p.g_cd * ((fw4 E p).h_fwxo - (fw4 E p).h_fwxi)
      / (p.n_h * ((les4 E p).h_esx - (fw4 E p).h_roxk))
  let g_les3 := (p.g_cd * ((fw3 E p).h_fwxo - (fw3 E p).h_fwxi)
      - p.n_h * g_les4 * ((fw4 E p).h_roxk - (fw3 E p).h_roxk))
      / (p.n_h * ((les3 E p).h_esx - (fw3 E p).h_roxk))
  let g_les2 := (p.g_cd * ((fw2 E p).h_fwxo - (fw2 E p).h_fwxi)
      - p.n_h * (g_les3 + g_les4) * ((fw3 E p).h_roxk - (fw2 E p).h_roxk))
      / (p.n_h * ((les2 E p).h_esx - (fw2 E p).h_roxk))
  let g_les1 := (p.g_cd * ((fw1 E p).h_fwxo - (fw1 E p).h_fwxi)
      - p.n_h * (g_les2 + g_les3 + g_les4) * ((fw2 E p).h_roxk - (fw1 E p).h_roxk))
      / (p.n_h * ((les1 E p).h_esx - (fw1 E p).h_roxk))
  let g_sl := (6/10 * 1000 * p.ne / (p.n_m * p.n_ge)
      + g_les4 * ((les4 E p).h_esx - h_lz E p)
      + g_les3 * ((les3 E p).h_esx - h_lz E p)
      + g_les2 * ((les2 E p).h_esx - h_lz E p)
      + g_les1 * ((les1 E p).h_esx - h_lz E p))
      / (h_li E p - h_lz E p)
  let g_zc1 := g_sl * dh_rh E p / (p.n_h * ((rh1 E p).h_rhx - (rh1 E p).h_zsx))
  let g_zc2 := g_sl * dh_rh E p / (p.n_h * ((rh2 E p).h_rhx - (rh2 E p).h_zsx))
  let g_hes7 := (g_fw * ((fw7 E p).h_fwxo - (fw7 E p).h_fwxi)
      - p.n_h * g_zc2 * ((rh2 E p).h_zsx - (fw7 E p).h_roxk))
      / (p.n_h * ((hes7 E p).h_esx - (fw7 E p).h_roxk))
  let g_hes6 := (g_fw * ((fw6 E p).h_fwxo - (fw6 E p).h_fwxi)
      - p.n_h * g_zc1 * ((rh1 E p).h_zsx - (fw6 E p).h_roxk)
      - p.n_h * (g_zc2 + g_hes7) * ((fw7 E p).h_roxk - (fw6 E p).h_roxk))
      / (p.n_h * ((hes6 E p).h_esx - (fw6 E p).h_roxk))
  let g_uw := g_sl * (x_rh1i E p - x_spi E p) / x_spi E p
  let g_sdea := (g_fw * h_deao E p - g_uw * h_uw E p
      - p.g_cd * (fw4 E p).h_fwxo
      - (g_zc1 + g_zc2 + g_hes6 + g_hes7) * (fw6 E p).h_roxk)
      / h_hz E p
  let g_sh := (4/10 * 1000 * p.ne / (p.n_m * p.n_ge)
      + g_hes7 * ((hes7 E p).h_esx - h_hz E p)
      + g_hes6 * ((hes6 E p).h_esx - h_hz E p)
      + g_zc1 * ((rh1 E p).h_rhx - h_hz E p))
      / (h_hi E p - h_hz E p)
  let d_s := g_fwps + g_zc2 + g_sh
  let g_fw1 := (1 + p.zeta_d) * d_s
  let g_cd1 := g_fw1 - g_sdea - g_uw - (g_hes6 + g_hes7 + g_zc1 + g_zc2)
  ⟨g_fwps, g_les4, g_les3, g_les2, g_les1, g_sl, g_zc1, g_zc2,
   g_hes7, g_hes6, g_uw, g_sdea, g_sh, d_s, g_fw1, g_cd1⟩

/-- Outcome of the inner loop at its break: the flows of the last body
evaluation together with the value that the loop variable g_fw held when the
break fired (the source updates g_fw only on the continue path). -/
structure InnerOut where
  fl : Flows
  g_fw : ℚ

/-- Inner condenser-flow loop, lib.rs lines 211-281.  Breaks when the
fractional change of the condenser flow is below 1e-2; otherwise writes the
new condenser flow into params.g_cd and the new feedwater flow into g_fw and
repeats.  The fuel argument bounds the number of body evaluations; none means
the source loop would still be running. -/
def innerLoop (E : Env) (h_fwp rho_fwp : ℚ) :
    Nat → Params → ℚ → Option (Params × InnerOut)
  | 0, _, _ => none
  | f + 1, p, g_fw =>
    let s := innerStep E p h_fwp rho_fwp g_fw
    if |s.g_cd1 - p.g_cd| / p.g_cd < 1/100 then some (p, ⟨s, g_fw⟩)
    else innerLoop E h_fwp rho_fwp f { p with g_cd := s.g_cd1 } s.g_fw1

/-- Per-pass iteration record, mirroring CalcResult1 in parameters.rs. -/
structure CalcResult1 where
  eta_enpp : ℚ
  g_shp : ℚ
  g_slp : ℚ
  g_srh1 : ℚ
  g_srh2 : ℚ
  g_sfwp : ℚ
  g_cd : ℚ
  g_sdea : ℚ
  q_r : ℚ
  d_s : ℚ
  g_fw : ℚ
  h_fwp : ℚ
  g_hes7 : ℚ
  g_hes6 : ℚ
  g_les4 : ℚ
  g_les3 : ℚ
  g_les2 : ℚ
  g_les1 : ℚ
  g_uw : ℚ
  g_zc1 : ℚ
  g_zc2 : ℚ

/-- Reactor thermal power seeded from the assumed plant efficiency at the top
of each outer pass, lib.rs line 189 (in MW). -/
def q_r0 (p : Params) : ℚ := p.ne / p.ne_npp

/-- Steam-generator steam production seeded from the assumed efficiency,
lib.rs lines 190-191 (kg per s); note the kW conversion factor 1000. -/
def d_s0 (E : Env) (p : Params) : ℚ :=
  1000 * q_r0 p * p.n_1
    / ((h_fh E p - h_s E p) + (1 + p.zeta_d) * (h_s E p - h_fw E p))

/-- Feedwater flow seeded from the steam production, lib.rs line 192. -/
def g_fw0 (E : Env) (p : Params) : ℚ := (1 + p.zeta_d) * d_s0 E p

/-- Feedwater pump head, lib.rs line 193. -/
def h_fwpv (p : Params) : ℚ := p_fwpo p - p_dea p

/-- Feedwater density, average of pump inlet and outlet, lib.rs line 194. -/
def rho_fwp (E : Env) (p : Params) : ℚ :=
  1/2 * (E.px (p_dea p) 0 .OD + E.px (p_fwpo p) 0 .OD)

/-- Reactor thermal power recomputed from the converged steam production,
lib.rs lines 282-283: the steam-generator energy balance in kW divided by
1000 times the primary-loop utilisation factor, i.e. a value in MW. -/
def qrNew (E : Env) (p1 : Params) (ds : ℚ) : ℚ :=
  (ds * (h_fh E p1 - h_fw E p1) + p1.zeta_d * ds * (h_s E p1 - h_fw E p1))
    / (1000 * p1.n_1)

/-- Iteration record appended at the end of each outer pass, lib.rs lines
285-307.  The stored q_r is the recomputed reactor power divided by 1000
once more (source comment kW to MW at line 294), and the stored g_fw is the
value the loop variable g_fw held when the inner loop broke. -/
def passRecord (E : Env) (p1 : Params) (io : InnerOut) (hf : ℚ) : CalcResult1 :=
  ⟨p1.ne_npp, io.fl.g_sh, io.fl.g_sl, io.fl.g_zc1, io.fl.g_zc2,
   io.fl.g_fwps, p1.g_cd, io.fl.g_sdea, qrNew E p1 io.fl.d_s / 1000,
   io.fl.d_s, io.g_fw, hf, io.fl.g_hes7, io.fl.g_hes6, io.fl.g_les4,
   io.fl.g_les3, io.fl.g_les2, io.fl.g_les1, io.fl.g_uw,
   io.fl.g_zc1, io.fl.g_zc2⟩

/-- Outer plant-efficiency loop, lib.rs lines 188-313.  Each pass seeds the
steam production from the assumed efficiency, runs the inner loop, recomputes
the reactor power and implied efficiency, appends one CalcResult1 to the
trace, then breaks when the efficiency moved by less than 1e-3 and otherwise
writes the new efficiency into params.ne_npp and repeats.  The returned Nat
counts the passes performed (one trace record is pushed per pass). -/
def outerLoop (E : Env) : Nat → Nat → Params → List CalcResult1 →
    Option (Params × List CalcResult1 × Nat)
  | 0, _, _, _ => none
  | f + 1, fi, p, acc =>
    match innerLoop E (h_fwpv p) (rho_fwp E p) fi p (g_fw0 E p) with
    | none => none
    | some (p1, io) =>
      let n_ennp1 := p1.ne / qrNew E p1 io.fl.d_s
      let acc1 := acc ++ [passRecord E p1 io (h_fwpv p)]
      if |n_ennp1 - p1.ne_npp| < 1/1000 then some (p1, acc1, 1)
      else
        match outerLoop E f fi { p1 with ne_npp := n_ennp1 } acc1 with
        | none => none
        | some (p2, tr, n) => some (p2, tr, n + 1)

/-- Per-stage feedwater sub-record with exactly the fields the result
assembly of lib.rs sets (the source literal omits the drain pressure). -/
structure CalcFWParameters where
  p_fwxi : ℚ
  h_fwxi : ℚ
  t_fwxi : ℚ
  p_fwxo : ℚ
  h_fwxo : ℚ
  t_fwxo : ℚ
  t_roxk : ℚ
  h_roxk : ℚ

/-- Extraction sub-record with exactly the fields the result assembly sets. -/
structure CalcHESParameters where
  p_hesx : ℚ
  x_hesx : ℚ
  h_hesxs : ℚ
  h_hesx : ℚ

/-- Reheater-tap sub-record, mirroring CalcRHXParameters. -/
structure CalcRHXParameters where
  p_rhx : ℚ
  x_rhx : ℚ
  t_rhx : ℚ
  h_rhx : ℚ
  h_zsx : ℚ

/-- Final detailed result record, mirroring CalcResult2 in parameters.rs. -/
structure CalcResult2 where
  ne : ℚ
  eta_1 : ℚ
  x_fh : ℚ
  zeta_d : ℚ
  eta_hi : ℚ
  eta_li : ℚ
  eta_m : ℚ
  eta_ge : ℚ
  dp_fh : ℚ
  dp_rh : ℚ
  dp_ej : ℚ
  dp_cd : ℚ
  theta_hu : ℚ
  theta_lu : ℚ
  eta_h : ℚ
  eta_fwpp : ℚ
  eta_fwpti : ℚ
  eta_fwptm : ℚ
  eta_fwptg : ℚ
  t_sw1 : ℚ
  p_c : ℚ
  t_cs : ℚ
  dt_sub : ℚ
  t_co : ℚ
  dt_c : ℚ
  t_ci : ℚ
  p_s : ℚ
  t_fh : ℚ
  dt_m : ℚ
  dt_sw : ℚ
  dt : ℚ
  t_cd : ℚ
  p_cd : ℚ
  p_hi : ℚ
  x_hi : ℚ
  h_fh : ℚ
  s_fh : ℚ
  s_hi : ℚ
  p_hz : ℚ
  x_hz : ℚ
  h_hi : ℚ
  h_hzs : ℚ
  h_hz : ℚ
  p_spi : ℚ
  x_spi : ℚ
  p_uw : ℚ
  h_uw : ℚ
  p_rh1i : ℚ
  x_rh1i : ℚ
  h_rh1i : ℚ
  p_rh1hs : ℚ
  x_rh1hs : ℚ
  p_rh2i : ℚ
  t_rh2i : ℚ
  p_rh2z : ℚ
  t_rh2z : ℚ
  h_rh2z : ℚ
  dh_rh : ℚ
  h_rh1z : ℚ
  h_rh2i : ℚ
  p_rh2hs : ℚ
  x_rh2hs : ℚ
  p_li : ℚ
  t_li : ℚ
  p_lz : ℚ
  x_lz : ℚ
  s_li : ℚ
  h_li : ℚ
  h_lzs : ℚ
  h_lz : ℚ
  z : ℚ
  z_l : ℚ
  z_h : ℚ
  dh_fw : ℚ
  h_s : ℚ
  h_cd : ℚ
  dh_fwop : ℚ
  h_fwop : ℚ
  t_fwop : ℚ
  t_fw : ℚ
  h_fw : ℚ
  dh_fwh : ℚ
  p_dea : ℚ
  h_deao : ℚ
  dh_fwl : ℚ
  p_cwp : ℚ
  h_cwp : ℚ
  dp_cws : ℚ
  dp_fi : ℚ
  lfwx : List CalcFWParameters
  h_deai : ℚ
  h_deao1 : ℚ
  t_dea : ℚ
  p_dea1 : ℚ
  p_fwpo : ℚ
  h_fwpo : ℚ
  p_fwi : ℚ
  hfwx : List CalcFWParameters
  s_hi1 : ℚ
  h_hi1 : ℚ
  hhes : List CalcHESParameters
  s_li1 : ℚ
  h_li1 : ℚ
  lhes : List CalcHESParameters
  rhx : List CalcRHXParameters

def fwEntry (r : FWRes) : CalcFWParameters :=
  ⟨r.p_fwxi, r.h_fwxi, r.t_fwxi, r.p_fwxo, r.h_fwxo, r.t_fwxo, r.t_roxk, r.h_roxk⟩

def hesEntry (r : ESRes) : CalcHESParameters :=
  ⟨r.p_esx, r.x_esx, r.h_esxs, r.h_esx⟩

def rhEntry (r : RHRes) : CalcRHXParameters :=
  ⟨r.p_rhx, r.x_rhx, r.t_rhx, r.h_rhx, r.h_zsx⟩

/-- Assembly of the final result record, lib.rs lines 316-537, evaluated
after the outer loop terminates; p is the parameter record at that point.
The assignment eta_li := p.n_hi reproduces the source line 322 verbatim. -/
def mkResult2 (E : Env) (p : Params) : CalcResult2 where
  ne := p.ne
  eta_1 := p.n_1
  x_fh := p.x_fh
  zeta_d := p.zeta_d
  eta_hi := p.n_hi
  eta_li := p.n_hi
  eta_m := p.n_m
  eta_ge := p.n_ge
  dp_fh := p.dp_fh
  dp_rh := dp_rhv p
  dp_ej := p.dp_ej
  dp_cd := p.dp_cd
  theta_hu := p.theta_hu
  theta_lu := p.theta_lu
  eta_h := p.n_h
  eta_fwpp := p.n_fwpp
  eta_fwpti := p.n_fwpti
  eta_fwptm := p.n_fwptm
  eta_fwptg := p.n_fwptg
  t_sw1 := p.t_sw1
  p_c := p.p_c
  t_cs := t_cs E p
  dt_sub := p.dt_sub
  t_co := t_co E p
  dt_c := p.dt_c
  t_ci := t_ci E p
  p_s := p.p_s
  t_fh := t_fh E p
  dt_m := dt_m E p
  dt_sw := p.dt_sw
  dt := p.dt
  t_cd := t_cd p
  p_cd := p_cd E p
  p_hi := p_hi p
  x_hi := x_hi E p
  h_fh := h_fh E p
  s_fh := s_fh E p
  s_hi := s_hi E p
  p_hz := p_hz p
  x_hz := x_hz E p
  h_hi := h_hi E p
  h_hzs := h_hzs E p
  h_hz := h_hz E p
  p_spi := p_spi p
  x_spi := x_spi E p
  p_uw := p_uw p
  h_uw := h_uw E p
  p_rh1i := p_rh1i p
  x_rh1i := x_rh1i E p
  h_rh1i := h_rh1i E p
  p_rh1hs := (rh1 E p).p_rhx
  x_rh1hs := (rh1 E p).x_rhx
  p_rh2i := p_rh2i p
  t_rh2i := t_rh2i E p
  p_rh2z := p_rh2z p
  t_rh2z := t_rh2zv E p
  h_rh2z := h_rh2z E p
  dh_rh := dh_rh E p
  h_rh1z := h_rh1z E p
  h_rh2i := h_rh2i E p
  p_rh2hs := p_rh2hs p
  x_rh2hs := x_rh2hs E p
  p_li := p_li p
  t_li := t_li E p
  p_lz := p_lz E p
  x_lz := x_lz E p
  s_li := s_li E p
  h_li := h_li E p
  h_lzs := h_lzs E p
  h_lz := h_lz E p
  z := p.z
  z_l := p.z_l
  z_h := p.z_h
  dh_fw := dh_fw E p
  h_s := h_s E p
  h_cd := h_cd E p
  dh_fwop := dh_fwop E p
  h_fwop := h_fwop E p
  t_fwop := t_fwop E p
  t_fw := t_fw E p
  h_fw := h_fw E p
  dh_fwh := dh_fwh E p
  p_dea := p_dea p
  h_deao := h_deao E p
  dh_fwl := dh_fwl E p
  p_cwp := p_cwp p
  h_cwp := h_cwp E p
  dp_cws := dp_cws p
  dp_fi := dp_fi p
  lfwx := [fwEntry (fw1 E p), fwEntry (fw2 E p), fwEntry (fw3 E p), fwEntry (fw4 E p)]
  h_deai := h_deai E p
  h_deao1 := h_deao E p
  t_dea := t_deao E p
  p_dea1 := p_dea p
  p_fwpo := p_fwpo p
  h_fwpo := h_fwpo E p
  p_fwi := p_fwi p
  hfwx := [fwEntry (fw6 E p), fwEntry (fw7 E p)]
  s_hi1 := s_hi E p
  h_hi1 := h_hi E p
  hhes := [hesEntry (hes6 E p), hesEntry (hes7 E p)]
  s_li1 := s_li E p
  h_li1 := h_li E p
  lhes := [hesEntry (les1 E p), hesEntry (les2 E p), hesEntry (les3 E p), hesEntry (les4 E p)]
  rhx := [rhEntry (rh1 E p), rhEntry (rh2 E p)]

/-- Everything Calculator::calculate leaves behind on success: the parameter
record (whose two iteration seeds were overwritten in place), the iteration
trace results.result1 and the final record results.result2. -/
structure CalcOutput where
  params : Params
  result1 : List CalcResult1
  result2 : CalcResult2

/-- Calculator::calculate.  The source function returns
Result of unit with a boxed error; its body contains a single return site,
return Ok(()), reached after both loops converge.  The Option layer is the
fuel bound on the two source loops (none = still looping); the Except layer
is the source's Result return channel. -/
def calculate (E : Env) (p : Params) (fo fi : Nat) :
    Option (Except String CalcOutput) :=
  match outerLoop E fo fi p [] with
  | none => none
  | some (p1, tr, _) => some (.ok ⟨p1, tr, mkResult2 E p1⟩)

/-! Concrete instances used as witnesses and counterexamples.  envG c is a
designed steam-property environment (the property service is an external
black box for this core, so any pure function is an admissible instance);
the parameter c is the condenser-exit condensate enthalpy it reports.
pG zh gcd is a designed parameter record with heater stage count z_h = zh
and condenser-flow seed g_cd = gcd. -/

def envG (c : ℚ) : Env where
  px := fun p x k =>
    match k with
    | .OT => if p = 15 then 350 else if p = 297/100 then 12 else if p = 6 then 290 else 100
    | .OH => if x = 0 then 0 else if p = 6 then 200 else if p = 1/2 then 240
        else if p = 297/100 then 30 else 0
    | .OS => 2
    | .OD => 1
    | _ => 0
  tx := fun t _ k =>
    match k with
    | .OH => if t = 290 then 7500000/23 else if t = 36 then c else if t = 11 then 5 else 0
    | .OP => if t = 36 then 1 else if t = 11 then 1/2 else 0
    | _ => 0
  ph := fun p _ k =>
    match k with
    | .OT => 10
    | .OS => if p = 6 then 2 else 1
    | .OX => 1
    | _ => 0
  ps := fun _ _ _ => 0
  pt := fun p _ k =>
    match k with
    | .OH => if p = 6 then 0 else 50
    | _ => 0
  fln := fun _ => 1

def pG (zh gcd : ℚ) : Params where
  ne := 1
  n_1 := 1
  x_fh := 1
  zeta_d := 0
  n_hi := 1/2
  n_li := 1/4
  n_m := 1
  n_ge := 1
  dp_fh := 0
  dp_rh := 0
  dp_ej := 0
  dp_cd := 0
  dp_f := 0
  theta_hu := 1
  theta_lu := 1
  n_h := 1
  n_fwpp := 1
  n_fwpti := 1
  n_fwptm := 1
  n_fwptg := 1
  t_sw1 := 24
  ne_npp := 1/3000
  g_cd := gcd
  p_c := 15
  dt_sub := 15
  dt_c := 35
  p_s := 6
  dt_sw := 7
  dt := 5
  dp_hz := 1/2
  t_rh2z := 0
  z := 7
  z_l := 4
  z_h := zh
  dt_fw := 1
  dp_fwpo := 99/200
  dp_cwp := 1

/-- Converged flows of the designed contracting instance (condensate enthalpy
-125): the assumed condenser flow 96/25 is an exact fixed point of the inner
map 24/5 + (-125)x/500 = 24/5 - x/4. -/
def flowsA : Flows :=
  ⟨0, 192/65, 192/65, 192/65, 192/65, 48, 2, 12/5, 0, 0, 0, 24/25, 34/5, 46/5, 46/5, 96/25⟩

def ioA : InnerOut := ⟨flowsA, 46/5⟩

/-- Trace record of the single outer pass of the designed contracting
instance; the recomputed reactor power is 3000 (MW) and the stored q_r
field is 3000/1000 = 3. -/
def recA : CalcResult1 :=
  ⟨1/3000, 34/5, 48, 2, 12/5, 0, 96/25, 24/25, 3, 46/5, 46/5, 0, 0, 0,
   192/65, 192/65, 192/65, 192/65, 0, 2, 12/5⟩

@[simp] theorem envG_px_OT (c p x : ℚ) : (envG c).px p x .OT =
    if p = 15 then 350 else if p = 297/100 then 12 else if p = 6 then 290 else 100 := rfl

@[simp] theorem envG_px_OH (c p x : ℚ) : (envG c).px p x .OH =
    if x = 0 then 0 else if p = 6 then 200 else if p = 1/2 then 240
    else if p = 297/100 then 30 else 0 := rfl

@[simp] theorem envG_px_OS (c p x : ℚ) : (envG c).px p x .OS = 2 := rfl

@[simp] theorem envG_px_OD (c p x : ℚ) : (envG c).px p x .OD = 1 := rfl

@[simp] theorem envG_tx_OH (c t x : ℚ) : (envG c).tx t x .OH =
    if t = 290 then 7500000/23 else if t = 36 then c else if t = 11 then 5 else 0 := rfl

@[simp] theorem envG_tx_OP (c t x : ℚ) : (envG c).tx t x .OP =
    if t = 36 then 1 else if t = 11 then 1/2 else 0 := rfl

@[simp] theorem envG_ph_OT (c a b : ℚ) : (envG c).ph a b .OT = 10 := rfl

@[simp] theorem envG_ph_OS (c a b : ℚ) : (envG c).ph a b .OS =
    if a = 6 then 2 else 1 := rfl

@[simp] theorem envG_ph_OX (c a b : ℚ) : (envG c).ph a b .OX = 1 := rfl

@[simp] theorem envG_ps_app (c a b : ℚ) (k : OKind) : (envG c).ps a b k = 0 := rfl

@[simp] theorem envG_pt_OH (c a b : ℚ) : (envG c).pt a b .OH =
    if a = 6 then 0 else 50 := rfl

@[simp] theorem envG_fln (c x : ℚ) : (envG c).fln x = 1 := rfl

theorem pG_update_g_cd (zh g0 g : ℚ) : { pG zh g0 with g_cd := g } = pG zh g := rfl

@[simp] theorem pG_ne (zh gcd : ℚ) : (pG zh gcd).ne = 1 := rfl

@[simp] theorem pG_n_1 (zh gcd : ℚ) : (pG zh gcd).n_1 = 1 := rfl

@[simp] theorem pG_x_fh (zh gcd : ℚ) : (pG zh gcd).x_fh = 1 := rfl

@[simp] theorem pG_zeta_d (zh gcd : ℚ) : (pG zh gcd).zeta_d = 0 := rfl

@[simp] theorem pG_n_hi (zh gcd : ℚ) : (pG zh gcd).n_hi = 1/2 := rfl

@[simp] theorem pG_n_li (zh gcd : ℚ) : (pG zh gcd).n_li = 1/4 := rfl

@[simp] theorem pG_n_m (zh gcd : ℚ) : (pG zh gcd).n_m = 1 := rfl

@[simp] theorem pG_n_ge (zh gcd : ℚ) : (pG zh gcd).n_ge = 1 := rfl

@[simp] theorem pG_dp_fh (zh gcd : ℚ) : (pG zh gcd).dp_fh = 0 := rfl

@[simp] theorem pG_dp_rh (zh gcd : ℚ) : (pG zh gcd).dp_rh = 0 := rfl

@[simp] theorem pG_dp_ej (zh gcd : ℚ) : (pG zh gcd).dp_ej = 0 := rfl

@[simp] theorem pG_dp_cd (zh gcd : ℚ) : (pG zh gcd).dp_cd = 0 := rfl

@[simp] theorem pG_dp_f (zh gcd : ℚ) : (pG zh gcd).dp_f = 0 := rfl

@[simp] theorem pG_theta_hu (zh gcd : ℚ) : (pG zh gcd).theta_hu = 1 := rfl

@[simp] theorem pG_theta_lu (zh gcd : ℚ) : (pG zh gcd).theta_lu = 1 := rfl

@[simp] theorem pG_n_h (zh gcd : ℚ) : (pG zh gcd).n_h = 1 := rfl

@[simp] theorem pG_n_fwpp (zh gcd : ℚ) : (pG zh gcd).n_fwpp = 1 := rfl

@[simp] theorem pG_n_fwpti (zh gcd : ℚ) : (pG zh gcd).n_fwpti = 1 := rfl

@[simp] theorem pG_n_fwptm (zh gcd : ℚ) : (pG zh gcd).n_fwptm = 1 := rfl

@[simp] theorem pG_n_fwptg (zh gcd : ℚ) : (pG zh gcd).n_fwptg = 1 := rfl

@[simp] theorem pG_t_sw1 (zh gcd : ℚ) : (pG zh gcd).t_sw1 = 24 := rfl

@[simp] theorem pG_ne_npp (zh gcd : ℚ) : (pG zh gcd).ne_npp = 1/3000 := rfl

@[simp] theorem pG_g_cd (zh gcd : ℚ) : (pG zh gcd).g_cd = gcd := rfl

@[simp] theorem pG_p_c (zh gcd : ℚ) : (pG zh gcd).p_c = 15 := rfl

@[simp] theorem pG_dt_sub (zh gcd : ℚ) : (pG zh gcd).dt_sub = 15 := rfl

@[simp] theorem pG_dt_c (zh gcd : ℚ) : (pG zh gcd).dt_c = 35 := rfl

@[simp] theorem pG_p_s (zh gcd : ℚ) : (pG zh gcd).p_s = 6 := rfl

@[simp] theorem pG_dt_sw (zh gcd : ℚ) : (pG zh gcd).dt_sw = 7 := rfl

@[simp] theorem pG_dt (zh gcd : ℚ) : (pG zh gcd).dt = 5 := rfl

@[simp] theorem pG_dp_hz (zh gcd : ℚ) : (pG zh gcd).dp_hz = 1/2 := rfl

@[simp] theorem pG_t_rh2z (zh gcd : ℚ) : (pG zh gcd).t_rh2z = 0 := rfl

@[simp] theorem pG_z (zh gcd : ℚ) : (pG zh gcd).z = 7 := rfl

@[simp] theorem pG_z_l (zh gcd : ℚ) : (pG zh gcd).z_l = 4 := rfl

@[simp] theorem pG_z_h (zh gcd : ℚ) : (pG zh gcd).z_h = zh := rfl

@[simp] theorem pG_dt_fw (zh gcd : ℚ) : (pG zh gcd).dt_fw = 1 := rfl

@[simp] theorem pG_dp_fwpo (zh gcd : ℚ) : (pG zh gcd).dp_fwpo = 99/200 := rfl

@[simp] theorem pG_dp_cwp (zh gcd : ℚ) : (pG zh gcd).dp_cwp = 1 := rfl

theorem vG_p_hi (zh gcd : ℚ) : p_hi (pG zh gcd) = 6 := by
  norm_num [p_hi, dp_fhv]

theorem vG_p_hz (zh gcd : ℚ) : p_hz (pG zh gcd) = 3 := by
  norm_num [p_hz, vG_p_hi]

theorem vG_h_hi (c zh gcd : ℚ) : h_hi (envG c) (pG zh gcd) = 200 := by
  norm_num [h_hi, vG_p_hi]

theorem vG_s_hi (c zh gcd : ℚ) : s_hi (envG c) (pG zh gcd) = 2 := by
  norm_num [s_hi, vG_p_hi]

theorem vG_h_hzs (c zh gcd : ℚ) : h_hzs (envG c) (pG zh gcd) = 0 := by
  norm_num [h_hzs]

theorem vG_h_hz (c zh gcd : ℚ) : h_hz (envG c) (pG zh gcd) = 100 := by
  norm_num [h_hz, vG_h_hi, vG_h_hzs]

theorem vG_x_spi (c zh gcd : ℚ) : x_spi (envG c) (pG zh gcd) = 1 := by
  norm_num [x_spi, x_hz]

theorem vG_x_rh1i (c zh gcd : ℚ) : x_rh1i (envG c) (pG zh gcd) = 1 := by
  norm_num [x_rh1i, vG_x_spi]

theorem vG_h_uw (c zh gcd : ℚ) : h_uw (envG c) (pG zh gcd) = 0 := by
  norm_num [h_uw]

theorem vG_t_fh (c zh gcd : ℚ) : t_fh (envG c) (pG zh gcd) = 290 := by
  norm_num [t_fh]

theorem vG_h_fh (c zh gcd : ℚ) : h_fh (envG c) (pG zh gcd) = 7500000/23 := by
  norm_num [h_fh, vG_t_fh]

theorem vG_h_rh1i (c zh gcd : ℚ) : h_rh1i (envG c) (pG zh gcd) = 30 := by
  norm_num [h_rh1i, p_rh1i, vG_p_hz, vG_x_rh1i]

theorem vG_h_rh2z (c zh gcd : ℚ) : h_rh2z (envG c) (pG zh gcd) = 50 := by
  norm_num [h_rh2z, p_rh2z, t_rh2zv, vG_p_hz, vG_t_fh]

theorem vG_dh_rh (c zh gcd : ℚ) : dh_rh (envG c) (pG zh gcd) = 10 := by
  norm_num [dh_rh, vG_h_rh2z, vG_h_rh1i]

theorem vG_h_li (c zh gcd : ℚ) : h_li (envG c) (pG zh gcd) = 50 := by
  norm_num [h_li, vG_h_rh2z]

theorem vG_s_li (c zh gcd : ℚ) : s_li (envG c) (pG zh gcd) = 1 := by
  norm_num [s_li, p_li, p_rh2z, vG_p_hz]

theorem vG_h_lzs (c zh gcd : ℚ) : h_lzs (envG c) (pG zh gcd) = 0 := by
  norm_num [h_lzs]

theorem vG_h_lz (c zh gcd : ℚ) : h_lz (envG c) (pG zh gcd) = 75/2 := by
  norm_num [h_lz, vG_h_li, vG_h_lzs]

theorem vG_h_s (c zh gcd : ℚ) : h_s (envG c) (pG zh gcd) = 0 := by
  norm_num [h_s]

theorem vG_h_cd (c zh gcd : ℚ) : h_cd (envG c) (pG zh gcd) = c := by
  norm_num [h_cd, t_cd]

theorem vG_t_fwop (c zh gcd : ℚ) : t_fwop (envG c) (pG zh gcd) = 10 := by
  norm_num [t_fwop]

theorem vG_h_fw (c zh gcd : ℚ) : h_fw (envG c) (pG zh gcd) = 0 := by
  norm_num [h_fw, t_fw, vG_t_fwop]

theorem vG_p_dea (zh gcd : ℚ) : p_dea (pG zh gcd) = 297/100 := by
  norm_num [p_dea, vG_p_hz]

theorem vG_t_deao (c zh gcd : ℚ) : t_deao (envG c) (pG zh gcd) = 12 := by
  norm_num [t_deao, vG_p_dea]

theorem vG_h_deao (c zh gcd : ℚ) : h_deao (envG c) (pG zh gcd) = 0 := by
  norm_num [h_deao, vG_t_deao]

theorem vG_dh_fwh (c zh gcd : ℚ) : dh_fwh (envG c) (pG zh gcd) = 0 := by
  norm_num [dh_fwh, vG_h_fw, vG_h_deao]

theorem vG_dh_fwl (c zh gcd : ℚ) : dh_fwl (envG c) (pG zh gcd) = -c/5 := by
  simp only [dh_fwl, vG_h_deao, vG_h_cd, pG_z_l]
  ring

theorem vG_p_cwp (zh gcd : ℚ) : p_cwp (pG zh gcd) = 297/100 := by
  norm_num [p_cwp, vG_p_dea]

theorem vG_dp_fi (zh gcd : ℚ) : dp_fi (pG zh gcd) = 0 := by
  norm_num [dp_fi, dp_cws, vG_p_cwp, vG_p_dea]

theorem vG_fw1 (c zh gcd : ℚ) :
    fw1 (envG c) (pG zh gcd) = ⟨297/100, c, 10, 297/100, 4*c/5, 10, 11, 5, 1/2⟩ := by
  simp only [fw1, calc_fwxl, vG_p_cwp, h_cwp, vG_h_cd, t_cwp, vG_dp_fi, vG_dh_fwl]
  norm_num [FWRes.mk.injEq]
  ring

theorem vG_fw2 (c zh gcd : ℚ) :
    fw2 (envG c) (pG zh gcd) = ⟨297/100, 4*c/5, 10, 297/100, 3*c/5, 10, 11, 5, 1/2⟩ := by
  simp only [fw2, calc_fwxl, vG_fw1, vG_dp_fi, vG_dh_fwl]
  norm_num [FWRes.mk.injEq]
  ring

theorem vG_fw3 (c zh gcd : ℚ) :
    fw3 (envG c) (pG zh gcd) = ⟨297/100, 3*c/5, 10, 297/100, 2*c/5, 10, 11, 5, 1/2⟩ := by
  simp only [fw3, calc_fwxl, vG_fw2, vG_dp_fi, vG_dh_fwl]
  norm_num [FWRes.mk.injEq]
  ring

theorem vG_fw4 (c zh gcd : ℚ) :
    fw4 (envG c) (pG zh gcd) = ⟨297/100, 2*c/5, 10, 297/100, c/5, 10, 11, 5, 1/2⟩ := by
  simp only [fw4, calc_fwxl, vG_fw3, vG_dp_fi, vG_dh_fwl]
  norm_num [FWRes.mk.injEq]
  ring

theorem vG_p_fwpo (zh gcd : ℚ) : p_fwpo (pG zh gcd) = 297/100 := by
  norm_num [p_fwpo]

theorem vG_h_fwpo (c zh gcd : ℚ) : h_fwpo (envG c) (pG zh gcd) = 0 := by
  norm_num [h_fwpo, vG_h_deao]

theorem vG_fw6 (c zh gcd : ℚ) :
    fw6 (envG c) (pG zh gcd) = ⟨297/100, 0, 10, 907/200, 0, 10, 11, 0, 1/2⟩ := by
  simp only [fw6, calc_fwxh, vG_p_fwpo, vG_h_fwpo, t_fwpo, p_fwi, vG_dh_fwh]
  norm_num [FWRes.mk.injEq]

theorem vG_fw7 (c zh gcd : ℚ) :
    fw7 (envG c) (pG zh gcd) = ⟨907/200, 0, 10, 61/10, 0, 10, 11, 0, 1/2⟩ := by
  simp only [fw7, calc_fwxh, vG_fw6, p_fwi, vG_dh_fwh]
  norm_num [FWRes.mk.injEq]

theorem vG_hes6 (c zh gcd : ℚ) :
    hes6 (envG c) (pG zh gcd) = ⟨1/2, 0, 100, 1⟩ := by
  simp only [hes6, calc_esx, vG_fw6, vG_s_hi, vG_h_hi]
  norm_num [ESRes.mk.injEq]

theorem vG_hes7 (c zh gcd : ℚ) :
    hes7 (envG c) (pG zh gcd) = ⟨1/2, 0, 100, 1⟩ := by
  simp only [hes7, calc_esx, vG_fw7, vG_s_hi, vG_h_hi]
  norm_num [ESRes.mk.injEq]

theorem vG_les1 (c zh gcd : ℚ) :
    les1 (envG c) (pG zh gcd) = ⟨1/2, 0, 75/2, 1⟩ := by
  simp only [les1, calc_esx, vG_fw1, vG_s_li, vG_h_li]
  norm_num [ESRes.mk.injEq]

theorem vG_les2 (c zh gcd : ℚ) :
    les2 (envG c) (pG zh gcd) = ⟨1/2, 0, 75/2, 1⟩ := by
  simp only [les2, calc_esx, vG_fw2, vG_s_li, vG_h_li]
  norm_num [ESRes.mk.injEq]

theorem vG_les3 (c zh gcd : ℚ) :
    les3 (envG c) (pG zh gcd) = ⟨1/2, 0, 75/2, 1⟩ := by
  simp only [les3, calc_esx, vG_fw3, vG_s_li, vG_h_li]
  norm_num [ESRes.mk.injEq]

theorem vG_les4 (c zh gcd : ℚ) :
    les4 (envG c) (pG zh gcd) = ⟨1/2, 0, 75/2, 1⟩ := by
  simp only [les4, calc_esx, vG_fw4, vG_s_li, vG_h_li]
  norm_num [ESRes.mk.injEq]

theorem vG_rh1 (c zh gcd : ℚ) :
    rh1 (envG c) (pG zh gcd) = ⟨1/2, 1, 100, 240, 0⟩ := by
  simp only [rh1, calc_rhx, vG_hes7]
  norm_num [RHRes.mk.injEq]

theorem vG_rh2 (c zh gcd : ℚ) :
    rh2 (envG c) (pG zh gcd) = ⟨6, 1, 290, 200, 0⟩ := by
  simp only [rh2, calc_rhx, vG_p_hi, x_hi, vG_h_hi]
  norm_num [RHRes.mk.injEq]

theorem vG_h_a (c zh gcd : ℚ) : h_a (envG c) (pG zh gcd) = 100 := by
  norm_num [h_a, vG_h_hi, vG_h_hz]

theorem innerStep_g_fw1 (E : Env) (p : Params) (hf rho gfw : ℚ) :
    (innerStep E p hf rho gfw).g_fw1 = (1 + p.zeta_d) * (innerStep E p hf rho gfw).d_s := rfl

theorem innerStep_g_cd1 (E : Env) (p : Params) (hf rho gfw : ℚ) :
    (innerStep E p hf rho gfw).g_cd1 =
      (innerStep E p hf rho gfw).g_fw1 - (innerStep E p hf rho gfw).g_sdea
        - (innerStep E p hf rho gfw).g_uw
        - ((innerStep E p hf rho gfw).g_hes6 + (innerStep E p hf rho gfw).g_hes7
          + (innerStep E p hf rho gfw).g_zc1 + (innerStep E p hf rho gfw).g_zc2) := rfl

/-- Symbolic evaluation of the inner-loop body on the designed instance:
with condensate enthalpy c and assumed condenser flow gcd, the new condenser
flow is 24/5 + c*gcd/500 and every other flow is as listed; the seeded
feedwater flow gfw has no influence because the pump head and the designed
deaerator enthalpy are zero. -/
theorem innerStep_G (c zh gcd gfw : ℚ) :
    innerStep (envG c) (pG zh gcd) 0 1 gfw =
      ⟨0, -2*c*gcd/325, -2*c*gcd/325, -2*c*gcd/325, -2*c*gcd/325, 48, 2, 12/5,
       0, 0, 0, -(c*gcd)/500, 34/5, 46/5, 46/5, 24/5 + c*gcd/500⟩ := by
  simp only [innerStep, vG_fw1, vG_fw2, vG_fw3, vG_fw4, vG_fw6, vG_fw7, vG_les1,
    vG_les2, vG_les3, vG_les4, vG_hes6, vG_hes7, vG_rh1, vG_rh2, vG_h_lz, vG_h_li,
    vG_dh_rh, vG_x_rh1i, vG_x_spi, vG_h_deao, vG_h_uw, vG_h_hz, vG_h_hi, vG_h_a,
    pG_g_cd, pG_n_h, pG_ne, pG_n_m, pG_n_ge, pG_zeta_d, pG_n_fwpp, pG_n_fwpti,
    pG_n_fwptm, pG_n_fwptg]
  rw [Flows.mk.injEq]
  refine ⟨?_, ?_, ?_, ?_, ?_, ?_, ?_, ?_, ?_, ?_, ?_, ?_, ?_, ?_, ?_, ?_⟩ <;> ring

theorem vG_h_fwpv (zh gcd : ℚ) : h_fwpv (pG zh gcd) = 0 := by
  norm_num [h_fwpv, vG_p_fwpo, vG_p_dea]

theorem vG_rho_fwp (c zh gcd : ℚ) : rho_fwp (envG c) (pG zh gcd) = 1 := by
  norm_num [rho_fwp, vG_p_dea, vG_p_fwpo]

theorem vG_d_s0 (c zh gcd : ℚ) : d_s0 (envG c) (pG zh gcd) = 46/5 := by
  norm_num [d_s0, q_r0, vG_h_fh, vG_h_s, vG_h_fw]

theorem vG_g_fw0 (c zh gcd : ℚ) : g_fw0 (envG c) (pG zh gcd) = 46/5 := by
  norm_num [g_fw0, vG_d_s0]

theorem vG_qrNew (c zh gcd : ℚ) : qrNew (envG c) (pG zh gcd) (46/5) = 3000 := by
  norm_num [qrNew, vG_h_fh, vG_h_fw, vG_h_s]

theorem innerLoop_A (zh : ℚ) (f : Nat) (gfw : ℚ) :
    innerLoop (envG (-125)) 0 1 (f + 1) (pG zh (96/25)) gfw =
      some (pG zh (96/25), ⟨flowsA, gfw⟩) := by
  rw [innerLoop, innerStep_G]
  rw [if_pos]
  · norm_num [flowsA, Flows.mk.injEq, InnerOut.mk.injEq]
  · simp only [pG_g_cd]
    rw [show (24/5 + -125 * (96/25) / 500 - 96/25 : ℚ) = 0 by norm_num]
    norm_num

theorem outerLoop_A (zh : ℚ) (fo fi : Nat) (acc : List CalcResult1) :
    outerLoop (envG (-125)) (fo + 1) (fi + 1) (pG zh (96/25)) acc =
      some (pG zh (96/25), acc ++ [recA], 1) := by
  rw [outerLoop, vG_h_fwpv, vG_rho_fwp, vG_g_fw0, innerLoop_A]
  norm_num [passRecord, recA, flowsA, vG_qrNew, CalcResult1.mk.injEq]

theorem calcA (zh : ℚ) (fo fi : Nat) :
    calculate (envG (-125)) (pG zh (96/25)) (fo + 1) (fi + 1) =
      some (Except.ok ⟨pG zh (96/25), [recA], mkResult2 (envG (-125)) (pG zh (96/25))⟩) := by
  rw [calculate, outerLoop_A]
  rfl

/-- On the designed oscillating instance (condensate enthalpy -500) the inner
map is x maysto 24/5 - x, so the assumed condenser flow alternates between 1
and 19/5 with relative change 14/5 resp. 14/19, never below the 1e-2
tolerance: the inner loop of the source never breaks, whatever the fuel. -/
theorem innerLoop_B (zh : ℚ) : ∀ (f : Nat) (gfw : ℚ),
    innerLoop (envG (-500)) 0 1 f (pG zh 1) gfw = none ∧
    innerLoop (envG (-500)) 0 1 f (pG zh (19/5)) gfw = none := by
  intro f
  induction f with
  | zero => exact fun gfw => ⟨rfl, rfl⟩
  | succ k ih =>
    intro gfw
    constructor
    · simp only [innerLoop, innerStep_G, pG_g_cd]
      have hc : ¬ (|24/5 + -500 * 1 / 500 - 1| / 1 < (1:ℚ)/100) := by
        rw [show (24/5 + -500 * 1 / 500 - 1 : ℚ) = 14/5 by norm_num]
        rw [abs_of_nonneg (by norm_num : (0:ℚ) ≤ 14/5)]
        norm_num
      rw [if_neg hc]
      rw [show ({ pG zh 1 with g_cd := (24/5 + -500 * 1 / 500 : ℚ) }) = pG zh (19/5) by
        rw [pG_update_g_cd]; norm_num]
      exact (ih (46/5)).2
    · simp only [innerLoop, innerStep_G, pG_g_cd]
      have hc : ¬ (|24/5 + -500 * (19/5) / 500 - 19/5| / (19/5) < (1:ℚ)/100) := by
        rw [show (24/5 + -500 * (19/5) / 500 - 19/5 : ℚ) = -(14/5) by norm_num]
        rw [abs_neg, abs_of_nonneg (by norm_num : (0:ℚ) ≤ 14/5)]
        norm_num
      rw [if_neg hc]
      rw [show ({ pG zh (19/5) with g_cd := (24/5 + -500 * (19/5) / 500 : ℚ) }) = pG zh 1 by
        rw [pG_update_g_cd]; norm_num]
      exact (ih (46/5)).1

/-- On the oscillating instance the outer loop never completes its first
pass, whatever fuel both loops receive. -/
theorem outerLoop_B (zh : ℚ) (fo fi : Nat) (acc : List CalcResult1) :
    outerLoop (envG (-500)) fo fi (pG zh 1) acc = none := by
  cases fo with
  | zero => rfl
  | succ k =>
    rw [outerLoop, vG_h_fwpv, vG_rho_fwp, vG_g_fw0, (innerLoop_B zh fi (46/5)).1]

/-- Shape of the outer-loop trace: whatever was in the accumulator when the
loop was entered is still there, in order, followed by exactly one new record
per pass performed. -/
theorem outerLoop_trace_shape (E : Env) :
    ∀ (fo fi : Nat) (p : Params) (acc : List CalcResult1) (q : Params)
      (tr : List CalcResult1) (n : Nat),
      outerLoop E fo fi p acc = some (q, tr, n) →
      (∃ l, tr = acc ++ l ∧ l.length = n) ∧ 1 ≤ n := by
  intro fo
  induction fo with
  | zero => intro fi p acc q tr n h; exact absurd h (by simp [outerLoop])
  | succ k ih =>
    intro fi p acc q tr n h
    rw [outerLoop] at h
    cases hin : innerLoop E (h_fwpv p) (rho_fwp E p) fi p (g_fw0 E p) with
    | none => rw [hin] at h; exact absurd h (by simp)
    | some pio =>
      obtain ⟨p1, io⟩ := pio
      rw [hin] at h
      dsimp only at h
      by_cases hb : |p1.ne / qrNew E p1 io.fl.d_s - p1.ne_npp| < 1/1000
      · rw [if_pos hb] at h
        simp only [Option.some.injEq, Prod.mk.injEq] at h
        obtain ⟨hq, htr, hn⟩ := h
        refine ⟨⟨[passRecord E p1 io (h_fwpv p)], htr.symm, ?_⟩, by omega⟩
        rw [← hn]
        rfl
      · rw [if_neg hb] at h
        cases hrec : outerLoop E k fi { p1 with ne_npp := p1.ne / qrNew E p1 io.fl.d_s }
            (acc ++ [passRecord E p1 io (h_fwpv p)]) with
        | none => rw [hrec] at h; exact absurd h (by simp)
        | some r3 =>
          obtain ⟨p2, tr2, m⟩ := r3
          rw [hrec] at h
          simp only [Option.some.injEq, Prod.mk.injEq] at h
          obtain ⟨hq, htr, hn⟩ := h
          obtain ⟨⟨l, hl, hlen⟩, hm⟩ := ih fi _ _ _ _ _ hrec
          refine ⟨⟨passRecord E p1 io (h_fwpv p) :: l, ?_, ?_⟩, by omega⟩
          · rw [← htr, hl]
            simp
          · simp only [List.length_cons, hlen, ← hn]

/-- The inner loop writes only the assumed condenser flow g_cd back into the
parameter record. -/
theorem innerLoop_frame (E : Env) (hf rho : ℚ) :
    ∀ (fi : Nat) (p : Params) (gfw : ℚ) (p1 : Params) (io : InnerOut),
      innerLoop E hf rho fi p gfw = some (p1, io) →
      ∃ g, p1 = { p with g_cd := g } := by
  intro fi
  induction fi with
  | zero => intro p gfw p1 io h; exact absurd h (by simp [innerLoop])
  | succ k ih =>
    intro p gfw p1 io h
    rw [innerLoop] at h
    by_cases hb : |(innerStep E p hf rho gfw).g_cd1 - p.g_cd| / p.g_cd < 1/100
    · rw [if_pos hb] at h
      simp only [Option.some.injEq, Prod.mk.injEq] at h
      exact ⟨p.g_cd, h.1.symm⟩
    · rw [if_neg hb] at h
      obtain ⟨g, hg⟩ := ih _ _ _ _ h
      exact ⟨g, hg⟩

/-- The outer loop writes only the assumed efficiency ne_npp and (through the
inner loop) the assumed condenser flow g_cd back into the parameter record. -/
theorem outerLoop_frame (E : Env) :
    ∀ (fo fi : Nat) (p : Params) (acc : List CalcResult1) (q : Params)
      (tr : List CalcResult1) (n : Nat),
      outerLoop E fo fi p acc = some (q, tr, n) →
      ∃ a b, q = { p with ne_npp := a, g_cd := b } := by
  intro fo
  induction fo with
  | zero => intro fi p acc q tr n h; exact absurd h (by simp [outerLoop])
  | succ k ih =>
    intro fi p acc q tr n h
    rw [outerLoop] at h
    cases hin : innerLoop E (h_fwpv p) (rho_fwp E p) fi p (g_fw0 E p) with
    | none => rw [hin] at h; exact absurd h (by simp)
    | some pio =>
      obtain ⟨p1, io⟩ := pio
      rw [hin] at h
      dsimp only at h
      obtain ⟨g, hg⟩ := innerLoop_frame E (h_fwpv p) (rho_fwp E p) fi p (g_fw0 E p) p1 io hin
      by_cases hb : |p1.ne / qrNew E p1 io.fl.d_s - p1.ne_npp| < 1/1000
      · rw [if_pos hb] at h
        simp only [Option.some.injEq, Prod.mk.injEq] at h
        refine ⟨p.ne_npp, g, ?_⟩
        rw [← h.1, hg]
      · rw [if_neg hb] at h
        cases hrec : outerLoop E k fi { p1 with ne_npp := p1.ne / qrNew E p1 io.fl.d_s }
            (acc ++ [passRecord E p1 io (h_fwpv p)]) with
        | none => rw [hrec] at h; exact absurd h (by simp)
        | some r3 =>
          obtain ⟨p2, tr2, m⟩ := r3
          rw [hrec] at h
          simp only [Option.some.injEq, Prod.mk.injEq] at h
          obtain ⟨a, b, hab⟩ := ih fi _ _ _ _ _ hrec
          refine ⟨a, b, ?_⟩
          rw [← h.1, hab, hg]

theorem abs_div_not_lt {x y d t : ℚ} (hx : x = -d) (hd : 0 ≤ d)
    (h : ¬ d / y < t) : ¬ |x| / y < t := by
  rw [hx, abs_neg, abs_of_nonneg hd]
  exact h

/-- C1, counterexample: on a concrete environment and input with mechanical
efficiency 1/2 and internal efficiency 1/2, the high-pressure exhaust
enthalpy computed by the code (100) is not inlet minus
(mechanical times internal efficiency) times the ideal drop (150): the code
does not apply the mechanical efficiency to the enthalpy drop. -/
theorem c1_hp_exhaust_counterexample :
    ¬ (h_hz (envG (-125)) { pG 2 (96/25) with n_m := 1/2 } =
      h_hi (envG (-125)) { pG 2 (96/25) with n_m := 1/2 }
        - ({ pG 2 (96/25) with n_m := 1/2 } : Params).n_m
            * ({ pG 2 (96/25) with n_m := 1/2 } : Params).n_hi
          * (h_hi (envG (-125)) { pG 2 (96/25) with n_m := 1/2 }
            - h_hzs (envG (-125)) { pG 2 (96/25) with n_m := 1/2 })) := by
  norm_num [h_hz, h_hi, h_hzs, s_hi, p_hi, p_hz, dp_fhv, pG]

/-- C1, amended: for every environment and input, the actual high-pressure
exhaust enthalpy equals the inlet enthalpy minus the internal efficiency
alone times the ideal (isentropic) enthalpy drop, h_hz = h_hi -
eta_hi*(h_hi - h_hzs); the mechanical efficiency does not enter.  The same
value is stored in the final result record. -/
theorem c1_hp_exhaust_amended (E : Env) (p : Params) :
    h_hz E p = h_hi E p - p.n_hi * (h_hi E p - h_hzs E p) ∧
    (mkResult2 E p).h_hz = h_hi E p - p.n_hi * (h_hi E p - h_hzs E p) :=
  ⟨rfl, rfl⟩

/-- C2: neither loop of Calculator::calculate carries an iteration cap and no
convergence failure is ever surfaced; on a concrete property environment and
input whose inner fixed-point map oscillates with period two, the solve runs
forever: for every fuel bound for both loops the embedded calculate is still
looping (none), so the source, which has no bound at all, never returns. -/
theorem c2_no_iteration_cap (fo fi : Nat) :
    calculate (envG (-500)) (pG 2 1) fo fi = none := by
  rw [calculate, outerLoop_B]

/-- C3: with a zero high-pressure heater stage count the solve is not
rejected: no validation exists, the division (h_fw - h_deao)/z_h is taken
with z_h = 0 and Calculator::calculate still returns Ok. -/
theorem c3_no_zero_stage_validation :
    (pG 0 (96/25)).z_h = 0 ∧
    ∃ out, calculate (envG (-125)) (pG 0 (96/25)) 1 1 = some (Except.ok out) :=
  ⟨rfl, ⟨_, calcA 0 0 0⟩⟩

/-- C4: the final result record does not echo the low-pressure internal
efficiency: on an input with n_li = 1/4 and n_hi = 1/2 the eta_li field of
the result record holds 1/2, i.e. the high-pressure value n_hi
(lib.rs line 322), not the caller-supplied n_li. -/
theorem c4_eta_li_echo_bug :
    ∃ out, calculate (envG (-125)) (pG 2 (96/25)) 1 1 = some (Except.ok out) ∧
      (pG 2 (96/25)).n_li = 1/4 ∧ (pG 2 (96/25)).n_hi = 1/2 ∧
      out.result2.eta_li = 1/2 ∧ out.result2.eta_li ≠ (pG 2 (96/25)).n_li := by
  refine ⟨_, calcA 2 0 0, rfl, rfl, ?_, ?_⟩
  · norm_num [mkResult2]
  · norm_num [mkResult2]

/-- C5: the reactor power is divided by 1000 twice.  On a concrete converged
run the recomputed reactor power qrNew (the energy balance over 1000 eta_1,
already megawatts) is 3000, but the q_r stored in the appended trace record
is 3000/1000 = 3: the claimed value in the 2900-3100 MW band is not what the
record holds. -/
theorem c5_reactor_power_double_conversion :
    ∃ out, calculate (envG (-125)) (pG 2 (96/25)) 1 1 = some (Except.ok out) ∧
      out.result1 = [recA] ∧
      qrNew (envG (-125)) (pG 2 (96/25)) recA.d_s = 3000 ∧
      recA.q_r = 3000 / 1000 ∧
      recA.q_r ≠ qrNew (envG (-125)) (pG 2 (96/25)) recA.d_s ∧
      ¬ (2900 ≤ recA.q_r ∧ recA.q_r ≤ 3100) := by
  refine ⟨_, calcA 2 0 0, rfl, ?_, ?_, ?_, ?_⟩
  · rw [show recA.d_s = 46/5 from rfl]
    exact vG_qrNew (-125) 2 (96/25)
  · norm_num [recA]
  · rw [show recA.d_s = 46/5 from rfl, vG_qrNew]
    norm_num [recA]
  · norm_num [recA]

/-- C6: given that the inner loop of an outer pass returned, the outer loop
of Calculator::calculate stops at this pass exactly when the absolute
difference between the newly implied efficiency (ne over the recomputed
reactor power) and the assumed efficiency is below 1e-3; and when the test
fails, the loop continues from the parameter record whose assumed efficiency
has been overwritten with the new value. -/
theorem c6_outer_convergence_test (E : Env) (fo fi : Nat) (p : Params)
    (acc : List CalcResult1) (p1 : Params) (io : InnerOut)
    (h : innerLoop E (h_fwpv p) (rho_fwp E p) fi p (g_fw0 E p) = some (p1, io)) :
    ((∃ q tr, outerLoop E (fo + 1) fi p acc = some (q, tr, 1)) ↔
      |p1.ne / qrNew E p1 io.fl.d_s - p1.ne_npp| < 1/1000) ∧
    (¬ |p1.ne / qrNew E p1 io.fl.d_s - p1.ne_npp| < 1/1000 →
      outerLoop E (fo + 1) fi p acc =
        Option.map (fun r => (r.1, r.2.1, r.2.2 + 1))
          (outerLoop E fo fi { p1 with ne_npp := p1.ne / qrNew E p1 io.fl.d_s }
            (acc ++ [passRecord E p1 io (h_fwpv p)]))) := by
  constructor
  · constructor
    · rintro ⟨q, tr, hq⟩
      rw [outerLoop, h] at hq
      dsimp only at hq
      by_cases hb : |p1.ne / qrNew E p1 io.fl.d_s - p1.ne_npp| < 1/1000
      · exact hb
      · exfalso
        rw [if_neg hb] at hq
        cases hrec : outerLoop E fo fi { p1 with ne_npp := p1.ne / qrNew E p1 io.fl.d_s }
            (acc ++ [passRecord E p1 io (h_fwpv p)]) with
        | none => rw [hrec] at hq; exact absurd hq (by simp)
        | some r3 =>
          obtain ⟨p2, tr2, m⟩ := r3
          rw [hrec] at hq
          simp only [Option.some.injEq, Prod.mk.injEq] at hq
          have hm := (outerLoop_trace_shape E fo fi _ _ _ _ _ hrec).2
          omega
    · intro hb
      rw [outerLoop, h]
      dsimp only
      rw [if_pos hb]
      exact ⟨p1, acc ++ [passRecord E p1 io (h_fwpv p)], rfl⟩
  · intro hb
    rw [outerLoop, h]
    dsimp only
    rw [if_neg hb]
    cases outerLoop E fo fi { p1 with ne_npp := p1.ne / qrNew E p1 io.fl.d_s }
        (acc ++ [passRecord E p1 io (h_fwpv p)]) with
    | none => rfl
    | some r3 =>
      obtain ⟨p2, tr2, m⟩ := r3
      rfl

theorem c6_outer_convergence_test_witness :
    ∃ q tr, outerLoop (envG (-125)) 1 1 (pG 2 (96/25)) [] = some (q, tr, 1) := by
  have h := c6_outer_convergence_test (envG (-125)) 0 1 (pG 2 (96/25)) []
    (pG 2 (96/25)) ⟨flowsA, 46/5⟩
    (by rw [vG_h_fwpv, vG_rho_fwp, vG_g_fw0]; exact innerLoop_A 2 0 (46/5))
  refine h.1.mpr ?_
  rw [show ((⟨flowsA, 46/5⟩ : InnerOut).fl.d_s : ℚ) = 46/5 from rfl, vG_qrNew]
  norm_num

/-- C7: whenever the outer loop of Calculator::calculate returns after some
number of passes, the trace it hands back is the entry accumulator, intact
and in order, followed by exactly one appended record per pass: records are
only ever appended, never modified or removed, and after n passes the trace
carries exactly n new records. -/
theorem c7_trace_append_only (E : Env) (fo fi : Nat) (p : Params)
    (acc : List CalcResult1) (q : Params) (tr : List CalcResult1) (n : Nat)
    (h : outerLoop E fo fi p acc = some (q, tr, n)) :
    (∃ l, tr = acc ++ l ∧ l.length = n) ∧ 1 ≤ n :=
  outerLoop_trace_shape E fo fi p acc q tr n h

theorem c7_trace_append_only_witness :
    (∃ l, [recA] = ([] : List CalcResult1) ++ l ∧ l.length = 1) ∧ 1 ≤ 1 :=
  c7_trace_append_only (envG (-125)) 1 1 (pG 2 (96/25)) [] (pG 2 (96/25))
    [recA] 1 (outerLoop_A 2 0 0 [])

/-- C8, amended: for every run on which the inner loop converged, the
feedwater flow implied by the converged steam production, (1+zeta_d)*d_s,
equals the assumed condensate flow plus deaerator steam, separator drain,
the two high-pressure extractions and the two reheater heating-steam taps,
within the 1e-2 relative tolerance of the condensate flow; the low-pressure
extractions and the feed-pump turbine steam are not part of this balance. -/
theorem c8_mass_balance_amended (E : Env) (hf rho : ℚ) (fi : Nat) (p : Params)
    (gfw : ℚ) (p1 : Params) (io : InnerOut)
    (h : innerLoop E hf rho fi p gfw = some (p1, io)) :
    |(1 + p1.zeta_d) * io.fl.d_s
      - (p1.g_cd + io.fl.g_sdea + io.fl.g_uw
        + (io.fl.g_hes6 + io.fl.g_hes7 + io.fl.g_zc1 + io.fl.g_zc2))| / p1.g_cd
      < 1/100 := by
  induction fi generalizing p gfw with
  | zero => exact absurd h (by simp [innerLoop])
  | succ k ih =>
    rw [innerLoop] at h
    by_cases hb : |(innerStep E p hf rho gfw).g_cd1 - p.g_cd| / p.g_cd < 1/100
    · rw [if_pos hb] at h
      simp only [Option.some.injEq, Prod.mk.injEq] at h
      obtain ⟨hp, hio⟩ := h
      rw [← hp, ← hio]
      dsimp only
      rw [show (1 + p.zeta_d) * (innerStep E p hf rho gfw).d_s
          - (p.g_cd + (innerStep E p hf rho gfw).g_sdea + (innerStep E p hf rho gfw).g_uw
            + ((innerStep E p hf rho gfw).g_hes6 + (innerStep E p hf rho gfw).g_hes7
              + (innerStep E p hf rho gfw).g_zc1 + (innerStep E p hf rho gfw).g_zc2))
          = (innerStep E p hf rho gfw).g_cd1 - p.g_cd by
        rw [innerStep_g_cd1, innerStep_g_fw1]
        ring]
      exact hb
    · rw [if_neg hb] at h
      exact ih _ _ h

theorem c8_mass_balance_amended_witness :
    |(1 + (pG 2 (96/25) : Params).zeta_d) * (⟨flowsA, 46/5⟩ : InnerOut).fl.d_s
      - ((pG 2 (96/25) : Params).g_cd + (⟨flowsA, 46/5⟩ : InnerOut).fl.g_sdea
        + (⟨flowsA, 46/5⟩ : InnerOut).fl.g_uw
        + ((⟨flowsA, 46/5⟩ : InnerOut).fl.g_hes6 + (⟨flowsA, 46/5⟩ : InnerOut).fl.g_hes7
          + (⟨flowsA, 46/5⟩ : InnerOut).fl.g_zc1 + (⟨flowsA, 46/5⟩ : InnerOut).fl.g_zc2))|
      / (pG 2 (96/25) : Params).g_cd < 1/100 :=
  c8_mass_balance_amended (envG (-125)) 0 1 1 (pG 2 (96/25)) (46/5) (pG 2 (96/25))
    ⟨flowsA, 46/5⟩ (innerLoop_A 2 0 (46/5))

/-- C8, counterexample: on a concrete converged run, the trace record shows a
feedwater flow of 46/5 but condensate flow plus ALL extraction and drain
flows including the four low-pressure extractions (192/65 each) and the
feed-pump turbine steam comes to 46/5 + 768/65: the balance the claim states,
with a tolerance of 1e-2 of the condensate flow, fails by a factor of
several hundred. -/
theorem c8_mass_balance_counterexample :
    ∃ out, calculate (envG (-125)) (pG 2 (96/25)) 1 1 = some (Except.ok out) ∧
      ∀ r ∈ out.result1,
        ¬ (|r.g_fw - (r.g_cd + r.g_sdea + r.g_uw
            + (r.g_hes6 + r.g_hes7 + r.g_zc1 + r.g_zc2)
            + (r.g_les1 + r.g_les2 + r.g_les3 + r.g_les4)
            + r.g_sfwp)| / r.g_cd < 1/100) := by
  refine ⟨_, calcA 2 0 0, ?_⟩
  intro r hr
  simp only [List.mem_singleton] at hr
  subst hr
  apply abs_div_not_lt (d := 768/65)
  · norm_num [recA]
  · norm_num
  · norm_num [recA]

/-- C9: a completed call of Calculator::calculate has written at most the two
iteration seeds ne_npp and g_cd into the parameter record: the record it
leaves behind is the caller-supplied record with only those two fields
replaced, so every other input field still holds its original value. -/
theorem c9_params_frame (E : Env) (p : Params) (fo fi : Nat) (out : CalcOutput)
    (h : calculate E p fo fi = some (Except.ok out)) :
    ∃ a b, out.params = { p with ne_npp := a, g_cd := b } := by
  rw [calculate] at h
  cases ho : outerLoop E fo fi p [] with
  | none => rw [ho] at h; exact absurd h (by simp)
  | some r3 =>
    obtain ⟨p1, tr, n⟩ := r3
    rw [ho] at h
    simp only [Option.some.injEq, Except.ok.injEq] at h
    obtain ⟨a, b, hab⟩ := outerLoop_frame E fo fi p [] p1 tr n ho
    refine ⟨a, b, ?_⟩
    rw [← h]
    exact hab

theorem c9_params_frame_witness :
    ∃ a b, (⟨pG 2 (96/25), [recA], mkResult2 (envG (-125)) (pG 2 (96/25))⟩ :
        CalcOutput).params = { pG 2 (96/25) with ne_npp := a, g_cd := b } :=
  c9_params_frame (envG (-125)) (pG 2 (96/25)) 1 1 _ (calcA 2 0 0)

/-- C10: whenever Calculator::calculate terminates, its Result return value
is Ok: the error branch of the return type is never produced, no matter the
environment or the input. -/
theorem c10_always_ok (E : Env) (p : Params) (fo fi : Nat)
    (r : Except String CalcOutput) (h : calculate E p fo fi = some r) :
    ∃ out, r = Except.ok out := by
  rw [calculate] at h
  cases ho : outerLoop E fo fi p [] with
  | none => rw [ho] at h; exact absurd h (by simp)
  | some r3 =>
    obtain ⟨p1, tr, n⟩ := r3
    rw [ho] at h
    simp only [Option.some.injEq] at h
    exact ⟨⟨p1, tr, mkResult2 E p1⟩, h.symm⟩

theorem c10_always_ok_witness :
    ∃ out, (Except.ok (⟨pG 2 (96/25), [recA], mkResult2 (envG (-125)) (pG 2 (96/25))⟩ :
        CalcOutput) : Except String CalcOutput) = Except.ok out :=
  c10_always_ok (envG (-125)) (pG 2 (96/25)) 1 1 _ (calcA 2 0 0)
